import Mathlib

/-!
# GRSISort: nonlinearity spline generator and nucleus name parsing

A shallow embedding of

* `scripts/NonlinearTSplineGenerator.cxx` (`main`, `gPeaks`, `gWidths`), and
* `libraries/TGRSIAnalysis/TNucleus/TNucleus.cxx`
  (`TNucleus::TNucleus(const char*)`, `TNucleus::GetZfromSymbol`).

Conventions.

* `double_t` values are exact rationals.  Every statement below is about which
  numbers are stored where; the only arithmetic performed by the script is the
  subtraction `CalPeak - DataPeak`.
* The ROOT calls `TSpectrum::Search` / `GetPositionX()[0]` and `TPeak::Fit` /
  `GetCentroid` are library code.  Their results are inputs of the model
  (`Spectrum`), one per reference peak index, with no restriction placed on them.
* `std::vector::data()` handed to a constructor together with a count `n` is a
  read of the first `n` cells; a count larger than the vector is a read past the
  end and is reported as `none`.
-/

namespace GRSISort

/-! ## scripts/NonlinearTSplineGenerator.cxx -/

/-- Input calibration peaks, `gPeaks` (source lines 68-69). -/
def gPeaks : List ℚ := [315.42, 769.31, 1864.89, 2118.26, 3275.16]

/-- Search half-widths, `gWidths` (source line 71). -/
def gWidths : List ℚ := [20, 20, 20, 20, 20]

/-- The value of `EXIT_FAILURE`. -/
def EXIT_FAILURE : Int := 1

/-- The projected histogram `h_en` of one channel, as seen by the script: what the
two library calls give back for the `k`-th reference peak.

* `searchPosition k lo hi` is `s.GetPositionX()[0]` after
  `SetRangeUser(lo, hi)` and `s.Search(h_en, 2, "", 0.25)`;
* `fitCentroid k c lo hi` is `CurPeak->GetCentroid()` after
  `new TPeak(c, lo, hi)` and `CurPeak->Fit(h_en, "MQ+")`. -/
structure Spectrum where
  searchPosition : Nat → ℚ → ℚ → ℚ
  fitCentroid : Nat → ℚ → ℚ → ℚ → ℚ

/-- The two parallel vectors `EngX` and `EngDiff` of the channel loop. -/
structure PointVectors where
  EngX : List ℚ
  EngDiff : List ℚ
deriving DecidableEq

/-- Body of the loop `for (int k = 0; k < nPeaks; k++)` (source lines 149-178) for
one value of `k`.  `none` is an index outside `gPeaks` or `gWidths`. -/
def peakBody (peaks widths : List ℚ) (h : Spectrum) (v : PointVectors) (k : Nat) :
    Option PointVectors :=
  match peaks[k]?, widths[k]? with
  | some CalPeak, some CalWidth =>
    let DataPeak := h.searchPosition k (CalPeak - CalWidth) (CalPeak + CalWidth)
    if DataPeak < 1 then
      some v
    else
      let DataPeak := h.fitCentroid k DataPeak (DataPeak - CalWidth) (DataPeak + CalWidth)
      some { EngX := v.EngX ++ [CalPeak], EngDiff := v.EngDiff ++ [CalPeak - DataPeak] }
  | _, _ => none

/-- The loop `for (int k = 0; k < nPeaks; k++)`, entered at index `k` with
`todo` iterations left. -/
def peakLoop (peaks widths : List ℚ) (h : Spectrum) :
    Nat → Nat → PointVectors → Option PointVectors
  | _, 0, v => some v
  | k, todo + 1, v =>
    match peakBody peaks widths h v k with
    | none => none
    | some v' => peakLoop peaks widths h (k + 1) todo v'

/-- The four `insert` calls under `// Boundary Condtions` (source lines 182-185). -/
def boundaryConditions (v : PointVectors) : PointVectors :=
  { EngX := 0 :: v.EngX ++ [5000], EngDiff := 0 :: v.EngDiff ++ [0] }

/-- The vectors `EngX`, `EngDiff` of one channel when the spline is about to be
made: empty vectors, the peak loop with `nPeaks = gPeaks.size()`, then the boundary
insertions (source lines 144-185). -/
def collectPoints (peaks widths : List ℚ) (h : Spectrum) : Option PointVectors :=
  (peakLoop peaks widths h 0 peaks.length { EngX := [], EngDiff := [] }).map boundaryConditions

/-- Reading `n` cells starting at `v.data()`; `none` when `n` exceeds `v.size()`. -/
def readData (v : List ℚ) (n : Nat) : Option (List ℚ) :=
  if n ≤ v.length then some (v.take n) else none

/-- The control points `(x[i], y[i])`, `i < n`, that
`new TSpline3("Energy Offset", EngX.data(), EngDiff.data(), nPeaks)` is given
(source lines 188-189); `nPeaks` is `gPeaks.size()` (source line 136). -/
def splinePoints (peaks : List ℚ) (v : PointVectors) : Option (List (ℚ × ℚ)) :=
  let nPeaks := peaks.length
  match readData v.EngX nPeaks, readData v.EngDiff nPeaks with
  | some xs, some ys => some (xs.zip ys)
  | _, _ => none

/-- What one pass of the channel loop leaves behind: the vectors and the control
points of the spline registered for the channel. -/
structure ChannelResult where
  points : PointVectors
  spline : List (ℚ × ℚ)
deriving DecidableEq

/-- How a run of `main` ends. -/
inductive Outcome where
  /-- The process ended with this status after processing these channels. -/
  | exited (status : Int) (processed : List ChannelResult)
  /-- An index or a read went past the end of a vector while the channel after
  `processed` was being handled. -/
  | outOfRange (processed : List ChannelResult)
deriving DecidableEq

/-- Body of `for (int i = 0; i < 64; i++)` for channel `i` (source lines 139-196). -/
def channelBody (peaks widths : List ℚ) (h : Spectrum) : Option ChannelResult :=
  match collectPoints peaks widths h with
  | none => none
  | some v =>
    match splinePoints peaks v with
    | none => none
    | some s => some { points := v, spline := s }

/-- The loop `for (int i = 0; i < 64; i++)`, entered at channel `i` with `todo`
channels left. -/
def channelLoop (peaks widths : List ℚ) (hist : Nat → Spectrum) :
    Nat → Nat → List ChannelResult → Outcome
  | _, 0, done => Outcome.exited 0 done
  | i, todo + 1, done =>
    match channelBody peaks widths (hist i) with
    | none => Outcome.outOfRange done
    | some r => channelLoop peaks widths hist (i + 1) todo (done ++ [r])

/-- The function `main` with the two global vectors as parameters.
`fileIsOpen` is `pFile->IsOpen()`, `treeFound` is `pTree != nullptr`, and
`hist i` is the projection `h_en` of channel `i`. -/
def mainWith (peaks widths : List ℚ) (argc : Int) (fileIsOpen treeFound : Bool)
    (hist : Nat → Spectrum) : Outcome :=
  if argc ≠ 2 then Outcome.exited EXIT_FAILURE []
  else if !fileIsOpen then Outcome.exited EXIT_FAILURE []
  else if peaks.length ≠ widths.length then Outcome.exited EXIT_FAILURE []
  else if !treeFound then Outcome.exited EXIT_FAILURE []
  else channelLoop peaks widths hist 0 64 []

/-- The function `main` (source lines 73-226). -/
def main (argc : Int) (fileIsOpen treeFound : Bool) (hist : Nat → Spectrum) : Outcome :=
  mainWith gPeaks gWidths argc fileIsOpen treeFound hist

/-! ### Vocabulary used to state the properties -/

/-- The `k`-th reference peak is skipped: the `continue` of source line 161 is taken. -/
def skipped (peaks widths : List ℚ) (h : Spectrum) (k : Nat) : Bool :=
  decide (h.searchPosition k (peaks.getD k 0 - widths.getD k 0)
    (peaks.getD k 0 + widths.getD k 0) < 1)

/-- The centroid measured for the `k`-th reference peak: the value of `DataPeak`
after source line 169. -/
def centroid (peaks widths : List ℚ) (h : Spectrum) (k : Nat) : ℚ :=
  let c := h.searchPosition k (peaks.getD k 0 - widths.getD k 0)
    (peaks.getD k 0 + widths.getD k 0)
  h.fitCentroid k c (c - widths.getD k 0) (c + widths.getD k 0)

/-- The pairs `(gPeaks[k], gPeaks[k] - centroid_k)` of the reference peaks
`k = start, ..., start + count - 1` that are not skipped, in that order. -/
def keptPairs (peaks widths : List ℚ) (h : Spectrum) (start count : Nat) : List (ℚ × ℚ) :=
  ((List.range count).map (· + start)).filterMap fun k =>
    if skipped peaks widths h k then none
    else some (peaks.getD k 0, peaks.getD k 0 - centroid peaks widths h k)

/-- The vectors `EngX`, `EngDiff` seen as one list of points. -/
def PointVectors.pairs (v : PointVectors) : List (ℚ × ℚ) := v.EngX.zip v.EngDiff

/-- Number of reference peaks that are skipped. -/
def skippedCount (peaks widths : List ℚ) (h : Spectrum) : Nat :=
  ((List.range peaks.length).filter (skipped peaks widths h)).length

/-- A channel in which every reference peak is located at the centre of its search
window and fitted half an energy unit below the located position. -/
def spectrumAllFound : Spectrum :=
  { searchPosition := fun _ lo hi => (lo + hi) / 2
    fitCentroid := fun _ c _ _ => c - 1 / 2 }

/-- A channel in which no reference peak is located: the search reports position 0. -/
def spectrumNoneFound : Spectrum :=
  { searchPosition := fun _ _ _ => 0
    fitCentroid := fun _ c _ _ => c }

/-- A channel in which the second reference peak is not located (position 0) and
the others are located at the centre of their window, the fit returning the located
position plus one. -/
def spectrumSecondMissing : Spectrum :=
  { searchPosition := fun k lo hi => if k = 1 then 0 else (lo + hi) / 2
    fitCentroid := fun _ c _ _ => c + 1 }

/-- A channel whose peaks are located at 105 (first reference peak) and 198 (the
others), the fit returning the located position. -/
def spectrum105and198 : Spectrum :=
  { searchPosition := fun k _ _ => if k = 0 then 105 else 198
    fitCentroid := fun _ c _ _ => c }

/-- A channel in which every reference peak is located at the centre of its search
window and the fit then returns the centroid 1/2. -/
def spectrumLowCentroid : Spectrum :=
  { searchPosition := fun _ lo hi => (lo + hi) / 2
    fitCentroid := fun _ _ _ _ => 1 / 2 }

/-! ## libraries/TGRSIAnalysis/TNucleus/TNucleus.cxx -/

/-- The C function `isspace` in the "C" locale. -/
def isspace (c : Char) : Bool :=
  c == ' ' || c == '\t' || c == '\n' || c == Char.ofNat 11 || c == Char.ofNat 12 || c == '\r'

/-- The value `std::string::npos` on a 64-bit platform. -/
def npos : Nat := 2 ^ 64 - 1

/-- Conversion of a `size_t` to `int` (two's complement, 32 bits). -/
def toInt (n : Nat) : Int :=
  if n % 2 ^ 32 < 2 ^ 31 then (n % 2 ^ 32 : Nat) else (n % 2 ^ 32 : Nat) - 2 ^ 32

/-- Conversion of an `int` to `size_t` (64 bits). -/
def toSizeT (i : Int) : Nat := (i % 2 ^ 64).toNat

/-- Position, counted from `i`, of the first character satisfying `p`; `npos` when
there is none. -/
def findFrom (p : Char → Bool) : List Char → Nat → Nat
  | [], _ => npos
  | c :: cs, i => if p c then i else findFrom p cs (i + 1)

/-- The character set `"0123456789 \t\n\r"` of source lines 89-90. -/
def digitChars : List Char := "0123456789 \t\n\r".toList

/-- The call `Name.find_first_of("0123456789 \t\n\r")`. -/
def find_first_of (Name : List Char) : Nat := findFrom (fun c => digitChars.contains c) Name 0

/-- The call `Name.find_first_not_of("0123456789 \t\n\r")`. -/
def find_first_not_of (Name : List Char) : Nat :=
  findFrom (fun c => !digitChars.contains c) Name 0

/-- The call `Name.substr(pos, len)`; `none` is the exception `std::out_of_range`,
thrown when `pos > Name.size()`. -/
def substr (Name : List Char) (pos len : Nat) : Option (List Char) :=
  if pos > Name.length then none else some ((Name.drop pos).take len)

/-- The digits read by `atoi`, accumulated in base ten until the first character
that is not a digit. -/
def atoiDigits : List Char → Nat → Nat
  | [], acc => acc
  | c :: cs, acc => if c.isDigit then atoiDigits cs (10 * acc + (c.toNat - 48)) else acc

/-- The C function `atoi`: leading white space, an optional sign, then digits.
`none` when the value does not fit an `int`, where the behaviour is undefined. -/
def atoi (s : List Char) : Option Int :=
  let body := s.dropWhile isspace
  let v : Int :=
    match body with
    | '-' :: t => -(atoiDigits t 0 : Int)
    | '+' :: t => (atoiDigits t 0 : Int)
    | _ => (atoiDigits body 0 : Int)
  if -2147483648 ≤ v ∧ v ≤ 2147483647 then some v else none

/-- How the name handling of `TNucleus::TNucleus(const char*)` can fail. -/
inductive NameError where
  /-- The usage message of source line 85 is printed and the constructor returns. -/
  | usage
  /-- A call to `substr` throws `std::out_of_range`. -/
  | outOfRange
  /-- The number handed to `atoi` does not fit an `int`. -/
  | intOverflow
deriving DecidableEq

/-- The locals `Number`, `symbol` and `element` after source line 99. -/
structure ParsedName where
  Number : Int
  symbol : List Char
  element : List Char
deriving DecidableEq

/-- Source line 64: all white space is erased from `Name`. -/
def eraseSpaces (name : List Char) : List Char := name.filter fun c => !isspace c

/-- Source lines 66-88: a name shorter than two characters is replaced according to
its first character (`Name[0]` is the null character for the empty name); `none` is
the `default:` branch. -/
def shortName (Name : List Char) : Option (List Char) :=
  if Name.length < 2 then
    match Name.headD (Char.ofNat 0) with
    | 'p' => some "h1".toList
    | 'd' => some "h2".toList
    | 't' => some "h3".toList
    | 'a' => some "he4".toList
    | _ => none
  else some Name

/-- Source lines 89-99: splitting `Name` into `Number` and `symbol`, and the key
`element` looked up in the mass table. -/
def splitName (Name : List Char) : Except NameError ParsedName :=
  let first_digit : Int := toInt (find_first_of Name)
  let first_letter : Int := toInt (find_first_not_of Name)
  if first_digit > first_letter then
    match substr Name (toSizeT first_digit) npos with
    | none => Except.error NameError.outOfRange
    | some digits =>
      match atoi digits with
      | none => Except.error NameError.intOverflow
      | some Number =>
        match substr Name (toSizeT first_letter) (toSizeT (first_digit - first_letter)) with
        | none => Except.error NameError.outOfRange
        | some symbol =>
          Except.ok { Number := Number, symbol := symbol,
                      element := (toString Number).toList ++ symbol }
  else
    match substr Name (toSizeT first_digit) (toSizeT (first_letter - first_digit)) with
    | none => Except.error NameError.outOfRange
    | some digits =>
      match atoi digits with
      | none => Except.error NameError.intOverflow
      | some Number =>
        match substr Name (toSizeT first_letter) npos with
        | none => Except.error NameError.outOfRange
        | some symbol =>
          Except.ok { Number := Number, symbol := symbol,
                      element := (toString Number).toList ++ symbol }

/-- Source lines 59-99 of `TNucleus::TNucleus(const char *name)`. -/
def parseName (name : List Char) : Except NameError ParsedName :=
  match shortName (eraseSpaces name) with
  | none => Except.error NameError.usage
  | some Name => splitName Name

/-- One line of the mass table, as read by `ss>>n; ss>>z; ss>>sym_name; ss>>mass`. -/
structure MassLine where
  n : Int
  z : Int
  sym_name : List Char
  mass : ℚ

/-- The test `strcasecmp(a, b) == 0`. -/
def strcasecmpEq (a b : List Char) : Bool := a.map Char.toLower == b.map Char.toLower

/-- The members set by `TNucleus::TNucleus(const char*)` (source lines 122-127).
`fMass`, which `SetMass()` derives from them, is left out. -/
structure NucleusFields where
  fZ : Int
  fN : Int
  fMassExcess : ℚ
  fSymbol : List Char
  fName : List Char

/-- How `TNucleus::TNucleus(const char*)` ends. -/
inductive Constructed where
  /-- The constructor returned early or threw: no member has been set. -/
  | unset (why : Option NameError)
  /-- The element was found in the mass table and the members were set. -/
  | set (fields : NucleusFields)

/-- The constructor `TNucleus::TNucleus(const char *name)` (source lines 57-129) on
the lines `massTable` of the mass file.  `unset none` is the case
"not found in the mass table". -/
def TNucleus (massTable : List MassLine) (name : List Char) : Constructed :=
  match parseName name with
  | Except.error e => Constructed.unset (some e)
  | Except.ok p =>
    match massTable.find? (fun l => strcasecmpEq p.element l.sym_name) with
    | none => Constructed.unset none
    | some l =>
      Constructed.set { fZ := l.z, fN := l.n, fMassExcess := l.mass / 1000,
                        fSymbol := p.symbol, fName := p.element }

/-- The table `symbols[105][3]` of `TNucleus::GetZfromSymbol` (source line 209). -/
def symbols : List (List Char) :=
  ["H", "HE", "LI", "BE", "B", "C", "N", "O", "F", "NE", "NA", "MG", "AL", "SI", "P", "S",
   "CL", "AR", "K", "CA", "SC", "TI", "V", "CR", "MN", "FE", "CO", "NI", "CU", "ZN", "GA",
   "GE", "AS", "SE", "BR", "KR", "RB", "SR", "Y", "ZR", "NB", "MO", "TC", "RU", "RH", "PD",
   "AG", "CD", "IN", "SN", "SB", "TE", "F", "XE", "CS", "BA", "LA", "CE", "PR", "ND", "PM",
   "SM", "EU", "GD", "TB", "DY", "HO", "ER", "TM", "YB", "LU", "HF", "TA", "W", "RE", "OS",
   "IR", "PT", "AU", "HG", "TI", "PB", "BI", "PO", "AT", "RN", "FR", "RA", "AC", "TH", "PA",
   "U", "NP", "PU", "AM", "CM", "BK", "CF", "ES", "FM", "MD", "NO", "LR", "RF", "HA"].map
    String.toList

/-- The C function `toupper` in the "C" locale. -/
def toupper (c : Char) : Char := c.toUpper

/-- The loop `for(int i=0;i<105;i++)` of `GetZfromSymbol` over the rest of the table,
entered at index `i`: the value returned, which is also the value given to `SetZ`. -/
def symbolLoop (search : List Char) : List (List Char) → Nat → Int
  | [], _ => 0
  | entry :: rest, i => if search = entry then (i : Int) + 1 else symbolLoop search rest (i + 1)

/-- The result of a call of `TNucleus::GetZfromSymbol`. -/
structure ZResult where
  returned : Int
  fZ : Int
deriving DecidableEq

/-- The method `TNucleus::GetZfromSymbol(char* symbol)` (source lines 208-228). -/
def GetZfromSymbol (symbol : List Char) : ZResult :=
  let search := symbol.map toupper
  let z := symbolLoop search symbols 0
  { returned := z, fZ := z }

/-! ### Vocabulary used to state the properties -/

/-- The number written by a string of decimal digits. -/
def decimalValue (d : List Char) : Nat := d.foldl (fun acc c => 10 * acc + (c.toNat - 48)) 0

/-! ## Proofs: scripts/NonlinearTSplineGenerator.cxx -/

/-! ### Lemmas on the peak loop -/

theorem peakBody_eq (peaks widths : List ℚ) (h : Spectrum) (v : PointVectors) (k : Nat)
    (hp : k < peaks.length) (hw : k < widths.length) :
    peakBody peaks widths h v k =
      some (if skipped peaks widths h k then v
        else { EngX := v.EngX ++ [peaks.getD k 0],
               EngDiff := v.EngDiff ++ [peaks.getD k 0 - centroid peaks widths h k] }) := by
  have e1 : peaks[k]? = some peaks[k] := List.getElem?_eq_getElem hp
  have e2 : widths[k]? = some widths[k] := List.getElem?_eq_getElem hw
  have d1 : peaks.getD k 0 = peaks[k] := by simp [List.getD, e1]
  have d2 : widths.getD k 0 = widths[k] := by simp [List.getD, e2]
  unfold peakBody
  rw [e1, e2]
  simp only [skipped, centroid, d1, d2]
  by_cases hs : h.searchPosition k (peaks[k] - widths[k]) (peaks[k] + widths[k]) < 1
  · simp [hs]
  · simp [hs]

theorem keptPairs_zero (peaks widths : List ℚ) (h : Spectrum) (start : Nat) :
    keptPairs peaks widths h start 0 = [] := by
  simp [keptPairs]

theorem keptPairs_succ (peaks widths : List ℚ) (h : Spectrum) (start count : Nat) :
    keptPairs peaks widths h start (count + 1) =
      (if skipped peaks widths h start then []
        else [(peaks.getD start 0, peaks.getD start 0 - centroid peaks widths h start)])
      ++ keptPairs peaks widths h (start + 1) count := by
  have hr : (List.range (count + 1)).map (· + start)
      = start :: (List.range count).map (· + (start + 1)) := by
    rw [List.range_succ_eq_map]
    simp only [List.map_cons, List.map_map, Nat.zero_add]
    congr 1
    apply List.map_congr_left
    intro a _
    simp only [Function.comp, Nat.succ_eq_add_one]
    omega
  unfold keptPairs
  rw [hr, List.filterMap_cons]
  by_cases hs : skipped peaks widths h start = true
  · simp [hs]
  · simp [hs]

theorem peakLoop_eq (peaks widths : List ℚ) (h : Spectrum) :
    ∀ (todo k : Nat) (v : PointVectors), k + todo ≤ peaks.length → k + todo ≤ widths.length →
      peakLoop peaks widths h k todo v =
        some { EngX := v.EngX ++ (keptPairs peaks widths h k todo).map Prod.fst,
               EngDiff := v.EngDiff ++ (keptPairs peaks widths h k todo).map Prod.snd } := by
  intro todo
  induction todo with
  | zero =>
    intro k v _ _
    simp [peakLoop, keptPairs_zero]
  | succ n ih =>
    intro k v hp hw
    rw [peakLoop, peakBody_eq peaks widths h v k (by omega) (by omega)]
    simp only
    rw [ih (k + 1) _ (by omega) (by omega), keptPairs_succ]
    by_cases hs : skipped peaks widths h k = true
    · simp [hs]
    · simp [hs]

theorem collectPoints_eq (peaks widths : List ℚ) (h : Spectrum)
    (hlen : peaks.length = widths.length) :
    collectPoints peaks widths h =
      some { EngX := 0 :: (keptPairs peaks widths h 0 peaks.length).map Prod.fst ++ [5000],
             EngDiff := 0 :: (keptPairs peaks widths h 0 peaks.length).map Prod.snd ++ [0] } := by
  unfold collectPoints
  rw [peakLoop_eq peaks widths h peaks.length 0 _ (by omega) (by omega)]
  simp [boundaryConditions]

theorem zip_fst_snd (l : List (ℚ × ℚ)) : (l.map Prod.fst).zip (l.map Prod.snd) = l := by
  induction l with
  | nil => rfl
  | cons a t ih => simp [ih]

theorem pairs_boundary (l : List (ℚ × ℚ)) :
    PointVectors.pairs { EngX := 0 :: l.map Prod.fst ++ [5000],
                         EngDiff := 0 :: l.map Prod.snd ++ [0] }
      = (0, 0) :: l ++ [(5000, 0)] := by
  unfold PointVectors.pairs
  simp only [List.cons_append, List.zip_cons_cons]
  rw [List.zip_append (by simp), zip_fst_snd]
  rfl

theorem keptPairs_length (peaks widths : List ℚ) (h : Spectrum) :
    ∀ (count start : Nat),
      (keptPairs peaks widths h start count).length
        + (((List.range count).map (· + start)).filter (skipped peaks widths h)).length
        = count := by
  intro count
  induction count with
  | zero => intro start; simp [keptPairs]
  | succ n ih =>
    intro start
    have hr : (List.range (n + 1)).map (· + start)
        = start :: (List.range n).map (· + (start + 1)) := by
      rw [List.range_succ_eq_map]
      simp only [List.map_cons, List.map_map, Nat.zero_add]
      congr 1
      apply List.map_congr_left
      intro a _
      simp only [Function.comp, Nat.succ_eq_add_one]
      omega
    rw [keptPairs_succ, hr, List.filter_cons]
    have := ih (start + 1)
    by_cases hs : skipped peaks widths h start = true
    · simp [hs]; omega
    · simp [hs]; omega

theorem keptPairs_fst (peaks widths : List ℚ) (h : Spectrum) (start count : Nat) :
    (keptPairs peaks widths h start count).map Prod.fst =
      ((List.range count).map (· + start)).filterMap fun k =>
        if skipped peaks widths h k then none else some (peaks.getD k 0) := by
  unfold keptPairs
  rw [List.map_filterMap]
  apply List.filterMap_congr
  intro k _
  by_cases hs : skipped peaks widths h k = true
  · simp [hs]
  · simp [hs]

theorem keptPairs_mem (peaks widths : List ℚ) (h : Spectrum) (count : Nat) (p : ℚ × ℚ)
    (hp : p ∈ keptPairs peaks widths h 0 count) :
    ∃ k, k < count ∧ skipped peaks widths h k = false ∧
      p = (peaks.getD k 0, peaks.getD k 0 - centroid peaks widths h k) := by
  unfold keptPairs at hp
  rw [List.mem_filterMap] at hp
  obtain ⟨k, hk, hk2⟩ := hp
  simp only [Nat.add_zero, List.map_id_fun', id_eq, List.mem_range] at hk
  refine ⟨k, hk, ?_⟩
  by_cases hs : skipped peaks widths h k = true
  · simp [hs] at hk2
  · simp only [hs, Bool.false_eq_true, if_false, Option.some.injEq] at hk2
    exact ⟨by simpa using hs, hk2.symm⟩

theorem keptPairs_fst_sorted (peaks widths : List ℚ) (h : Spectrum)
    (hs : peaks.Sorted (· < ·)) :
    ((keptPairs peaks widths h 0 peaks.length).map Prod.fst).Sorted (· < ·) := by
  rw [keptPairs_fst]
  simp only [Nat.add_zero, List.map_id_fun', id_eq]
  unfold List.Sorted
  rw [List.pairwise_filterMap]
  have hr : (List.range peaks.length).Pairwise (· < ·) := List.pairwise_lt_range _
  refine hr.imp_of_mem ?_
  intro a b ha hb hab x hx y hy
  rw [List.mem_range] at ha hb
  by_cases h1 : skipped peaks widths h a = true
  · simp [h1] at hx
  by_cases h2 : skipped peaks widths h b = true
  · simp [h2] at hy
  simp only [h1, h2, Bool.false_eq_true, if_false, Option.mem_def, Option.some.injEq] at hx hy
  subst hx hy
  have ea : peaks.getD a 0 = peaks[a] := by simp [List.getD, List.getElem?_eq_getElem ha]
  have eb : peaks.getD b 0 = peaks[b] := by simp [List.getD, List.getElem?_eq_getElem hb]
  rw [ea, eb]
  exact (List.pairwise_iff_getElem.mp hs) a b ha hb hab

theorem keptPairs_fst_mem (peaks widths : List ℚ) (h : Spectrum) (x : ℚ)
    (hx : x ∈ (keptPairs peaks widths h 0 peaks.length).map Prod.fst) : x ∈ peaks := by
  rw [List.mem_map] at hx
  obtain ⟨p, hp, rfl⟩ := hx
  obtain ⟨k, hk, _, rfl⟩ := keptPairs_mem peaks widths h peaks.length p hp
  have ek : peaks.getD k 0 = peaks[k] := by simp [List.getD, List.getElem?_eq_getElem hk]
  simp only [ek]
  exact List.getElem_mem hk

theorem gPeaks_sorted : gPeaks.Sorted (· < ·) := by
  simp only [gPeaks, List.Sorted, List.pairwise_cons, List.mem_cons, List.mem_singleton]
  norm_num

theorem gPeaks_inside (p : ℚ) (hp : p ∈ gPeaks) : 0 < p ∧ p < 5000 := by
  simp only [gPeaks, List.mem_cons, List.mem_singleton] at hp
  rcases hp with rfl | rfl | rfl | rfl | rfl | hp
  · constructor <;> norm_num
  · constructor <;> norm_num
  · constructor <;> norm_num
  · constructor <;> norm_num
  · constructor <;> norm_num
  · exact absurd hp (List.not_mem_nil p)

theorem EngX_sorted (peaks widths : List ℚ) (h : Spectrum)
    (hlen : peaks.length = widths.length) (hs : peaks.Sorted (· < ·))
    (hb : ∀ p ∈ peaks, 0 < p ∧ p < 5000) :
    ∃ v, collectPoints peaks widths h = some v ∧ v.EngX.Sorted (· < ·) := by
  refine ⟨_, collectPoints_eq peaks widths h hlen, ?_⟩
  simp only [List.Sorted, List.cons_append, List.pairwise_cons, List.pairwise_append,
    List.mem_append, List.mem_singleton, List.Pairwise.nil, and_true, true_and,
    List.not_mem_nil, false_implies, implies_true]
  refine ⟨?_, keptPairs_fst_sorted peaks widths h hs, ?_⟩
  · intro a ha
    rcases ha with ha | rfl
    · exact (hb a (keptPairs_fst_mem peaks widths h a ha)).1
    · norm_num
  · intro a ha b hb5
    subst hb5
    exact (hb a (keptPairs_fst_mem peaks widths h a ha)).2

/-! ### Properties of the channel loop -/

/-- C1 (evaluation at the failing input): with the built-in `gPeaks`, `gWidths` and a
channel in which all five peaks are found, the vectors hold seven points ending in
`(5000, 0)`, but the spline is made from the first `nPeaks = 5` of them, so
`(5000, 0)` is not among the points handed to the spline constructor. -/
theorem C1_upper_boundary_not_handed_to_spline :
    ∃ r, channelBody gPeaks gWidths spectrumAllFound = some r ∧
      r.points.pairs = [(0, 0), (315.42, 1 / 2), (769.31, 1 / 2), (1864.89, 1 / 2),
        (2118.26, 1 / 2), (3275.16, 1 / 2), (5000, 0)] ∧
      r.spline = [(0, 0), (315.42, 1 / 2), (769.31, 1 / 2), (1864.89, 1 / 2),
        (2118.26, 1 / 2)] ∧
      (5000, 0) ∉ r.spline := by
  refine ⟨⟨⟨[0, 315.42, 769.31, 1864.89, 2118.26, 3275.16, 5000],
    [0, 1 / 2, 1 / 2, 1 / 2, 1 / 2, 1 / 2, 0]⟩,
    [(0, 0), (315.42, 1 / 2), (769.31, 1 / 2), (1864.89, 1 / 2), (2118.26, 1 / 2)]⟩,
    ?_, ?_, rfl, ?_⟩
  · norm_num [channelBody, collectPoints, peakLoop, peakBody, gPeaks, gWidths,
      spectrumAllFound, boundaryConditions, splinePoints, readData]
  · norm_num [PointVectors.pairs]
  · norm_num

/-- C2 (evaluation at the failing input): with the built-in `gPeaks`, `gWidths` and a
channel in which all five peaks are found, the fifth peak is valid and its point
`(gPeaks[4], gPeaks[4] - centroid_4)` is stored in the vectors, but it is not among
the `nPeaks = 5` points the spline is made from. -/
theorem C2_last_valid_peak_not_handed_to_spline :
    ∃ r, channelBody gPeaks gWidths spectrumAllFound = some r ∧
      skipped gPeaks gWidths spectrumAllFound 4 = false ∧
      (gPeaks.getD 4 0, gPeaks.getD 4 0 - centroid gPeaks gWidths spectrumAllFound 4)
        ∈ r.points.pairs ∧
      (gPeaks.getD 4 0, gPeaks.getD 4 0 - centroid gPeaks gWidths spectrumAllFound 4)
        ∉ r.spline ∧
      ∀ y, (gPeaks.getD 4 0, y) ∉ r.spline := by
  refine ⟨⟨⟨[0, 315.42, 769.31, 1864.89, 2118.26, 3275.16, 5000],
    [0, 1 / 2, 1 / 2, 1 / 2, 1 / 2, 1 / 2, 0]⟩,
    [(0, 0), (315.42, 1 / 2), (769.31, 1 / 2), (1864.89, 1 / 2), (2118.26, 1 / 2)]⟩,
    ?_, ?_, ?_, ?_, ?_⟩
  · norm_num [channelBody, collectPoints, peakLoop, peakBody, gPeaks, gWidths,
      spectrumAllFound, boundaryConditions, splinePoints, readData]
  · norm_num [skipped, gPeaks, gWidths, spectrumAllFound]
  · norm_num [PointVectors.pairs, centroid, gPeaks, gWidths, spectrumAllFound]
  · norm_num [centroid, gPeaks, gWidths, spectrumAllFound]
  · intro y
    norm_num [gPeaks]

/-- C3: when the two reference vectors have the same length, the point set collected
for a channel is `(0, 0)`, then `(gPeaks[k], gPeaks[k] - centroid_k)` for every peak
`k` that is not skipped, in order, then `(5000, 0)`; both vectors have
(number of peaks - number of skipped peaks) + 2 entries. -/
theorem C3_collected_points (peaks widths : List ℚ) (h : Spectrum)
    (hlen : peaks.length = widths.length) :
    ∃ v, collectPoints peaks widths h = some v ∧
      v.pairs = (0, 0) :: keptPairs peaks widths h 0 peaks.length ++ [(5000, 0)] ∧
      v.EngX.length = (peaks.length - skippedCount peaks widths h) + 2 ∧
      v.EngDiff.length = (peaks.length - skippedCount peaks widths h) + 2 ∧
      skippedCount peaks widths h ≤ peaks.length := by
  have hk := keptPairs_length peaks widths h peaks.length 0
  simp only [Nat.add_zero, List.map_id_fun', id_eq] at hk
  refine ⟨_, collectPoints_eq peaks widths h hlen, pairs_boundary _, ?_, ?_, ?_⟩
  · simp only [skippedCount, List.cons_append, List.length_cons, List.length_append,
      List.length_map, List.length_singleton, List.length_nil]
    omega
  · simp only [skippedCount, List.cons_append, List.length_cons, List.length_append,
      List.length_map, List.length_singleton, List.length_nil]
    omega
  · simp only [skippedCount]
    omega

/-- Witness of C3: the built-in reference vectors and a channel whose second peak is
skipped. -/
theorem C3_collected_points_witness :
    gPeaks.length = gWidths.length ∧
    ∃ v, collectPoints gPeaks gWidths spectrumSecondMissing = some v ∧
      v.pairs = (0, 0) :: keptPairs gPeaks gWidths spectrumSecondMissing 0 gPeaks.length
        ++ [(5000, 0)] ∧
      v.EngX.length = (gPeaks.length - skippedCount gPeaks gWidths spectrumSecondMissing) + 2 ∧
      v.EngDiff.length
        = (gPeaks.length - skippedCount gPeaks gWidths spectrumSecondMissing) + 2 ∧
      skippedCount gPeaks gWidths spectrumSecondMissing ≤ gPeaks.length :=
  ⟨rfl, C3_collected_points gPeaks gWidths spectrumSecondMissing rfl⟩

/-- C4 (evaluation at the failing input): with the built-in `gPeaks`, `gWidths` and a
channel in which every peak is skipped, the vectors hold exactly the two boundary
points, while the spline constructor is told to read `nPeaks = 5` points: the read
goes past the end of the vectors, so no spline on the two boundary points is made,
and a run of `main` whose first channel is like this ends there. -/
theorem C4_all_skipped_reads_past_the_end :
    collectPoints gPeaks gWidths spectrumNoneFound
        = some { EngX := [0, 5000], EngDiff := [0, 0] } ∧
      ((List.range gPeaks.length).all (skipped gPeaks gWidths spectrumNoneFound)) = true ∧
      (2 : Nat) < gPeaks.length ∧
      splinePoints gPeaks { EngX := [0, 5000], EngDiff := [0, 0] } = none ∧
      channelBody gPeaks gWidths spectrumNoneFound = none ∧
      main 2 true true (fun _ => spectrumNoneFound) = Outcome.outOfRange [] := by
  have hc : collectPoints gPeaks gWidths spectrumNoneFound
      = some { EngX := [0, 5000], EngDiff := [0, 0] } := by
    norm_num [collectPoints, peakLoop, peakBody, gPeaks, gWidths, spectrumNoneFound,
      boundaryConditions]
  have hs : splinePoints gPeaks { EngX := [0, 5000], EngDiff := [0, 0] } = none := by
    simp [splinePoints, readData, gPeaks]
  have hb : channelBody gPeaks gWidths spectrumNoneFound = none := by
    simp only [channelBody, hc, hs]
  refine ⟨hc, ?_, ?_, hs, hb, ?_⟩
  · norm_num [List.range, List.range.loop, List.all, skipped, gPeaks, gWidths,
      spectrumNoneFound]
  · simp [gPeaks]
  · simp only [main, mainWith, channelLoop, hb]
    simp [gPeaks, gWidths]

/-- C5 (counterexample): with reference energies `[100, 200]`, widths `[10, 10]` and
measured centroids 105 and 198, neither the collected points nor the points handed
to the spline are `[(0,0), (100,5), (200,2), (5000,0)]`, and the offset stored for
the energy 100 does not bring 100 to 105. -/
theorem C5_claimed_points_refuted :
    centroid [100, 200] [10, 10] spectrum105and198 0 = 105 ∧
    centroid [100, 200] [10, 10] spectrum105and198 1 = 198 ∧
    (collectPoints [100, 200] [10, 10] spectrum105and198).map PointVectors.pairs
      ≠ some [(0, 0), (100, 5), (200, 2), (5000, 0)] ∧
    (channelBody [100, 200] [10, 10] spectrum105and198).map ChannelResult.spline
      ≠ some [(0, 0), (100, 5), (200, 2), (5000, 0)] ∧
    ((collectPoints [100, 200] [10, 10] spectrum105and198).bind
      fun v => (v.pairs.lookup 100).map (100 + ·)) ≠ some 105 := by
  refine ⟨?_, ?_, ?_, ?_, ?_⟩
  · norm_num [centroid, spectrum105and198]
  · norm_num [centroid, spectrum105and198]
  · norm_num [collectPoints, peakLoop, peakBody, spectrum105and198, boundaryConditions,
      PointVectors.pairs]
  · norm_num [channelBody, collectPoints, peakLoop, peakBody, spectrum105and198,
      boundaryConditions, splinePoints, readData]
  · have e : ((100 : ℚ) == 0) = false := by
      rw [beq_eq_false_iff_ne]
      norm_num
    norm_num [collectPoints, peakLoop, peakBody, spectrum105and198, boundaryConditions,
      PointVectors.pairs, List.lookup, e]

/-- C5 (amended): with reference energies `[100, 200]`, widths `[10, 10]`, both peaks
located (position at least 1) and measured centroids 105 and 198, the points collected
by the channel loop are `[(0,0), (100,-5), (200,2), (5000,0)]`, and the raw energy 100
plus the offset stored for it is 95. -/
theorem C5_points_and_offset (h : Spectrum)
    (h0 : skipped [100, 200] [10, 10] h 0 = false)
    (h1 : skipped [100, 200] [10, 10] h 1 = false)
    (c0 : centroid [100, 200] [10, 10] h 0 = 105)
    (c1 : centroid [100, 200] [10, 10] h 1 = 198) :
    (collectPoints [100, 200] [10, 10] h).map PointVectors.pairs
      = some [(0, 0), (100, -5), (200, 2), (5000, 0)] ∧
    ((collectPoints [100, 200] [10, 10] h).bind
      fun v => (v.pairs.lookup 100).map (100 + ·)) = some 95 := by
  have hk : keptPairs [100, 200] [10, 10] h 0 2 = [(100, -5), (200, 2)] := by
    rw [keptPairs_succ, keptPairs_succ, keptPairs_zero]
    simp only [h0, h1, c0, c1, Nat.zero_add, Bool.false_eq_true, if_false]
    norm_num
  have hc := collectPoints_eq [100, 200] [10, 10] h rfl
  simp only [List.length_cons, List.length_nil, Nat.zero_add, Nat.reduceAdd, hk] at hc
  rw [hc]
  constructor
  · simp [PointVectors.pairs]
  · have e : ((100 : ℚ) == 0) = false := by
      rw [beq_eq_false_iff_ne]
      norm_num
    norm_num [PointVectors.pairs, List.lookup, e]

/-- Witness of C5 (amended): the channel with peaks located and fitted at 105 and 198. -/
theorem C5_points_and_offset_witness :
    (collectPoints [100, 200] [10, 10] spectrum105and198).map PointVectors.pairs
      = some [(0, 0), (100, -5), (200, 2), (5000, 0)] ∧
    ((collectPoints [100, 200] [10, 10] spectrum105and198).bind
      fun v => (v.pairs.lookup 100).map (100 + ·)) = some 95 :=
  C5_points_and_offset spectrum105and198
    (by norm_num [skipped, spectrum105and198])
    (by norm_num [skipped, spectrum105and198])
    (by norm_num [centroid, spectrum105and198])
    (by norm_num [centroid, spectrum105and198])

/-- C6 (counterexample): with the built-in `gPeaks`, `gWidths` and a channel whose
first peak is located at 315.42 but fitted with centroid 1/2, the centroid is below 1,
yet the pair is not skipped and its offset `315.42 - 1/2` is recorded. -/
theorem C6_low_centroid_is_recorded :
    centroid gPeaks gWidths spectrumLowCentroid 0 < 1 ∧
    skipped gPeaks gWidths spectrumLowCentroid 0 = false ∧
    ∃ v, collectPoints gPeaks gWidths spectrumLowCentroid = some v ∧
      v.EngX.length = 7 ∧
      (gPeaks.getD 0 0, gPeaks.getD 0 0 - centroid gPeaks gWidths spectrumLowCentroid 0)
        ∈ v.pairs := by
  refine ⟨?_, ?_, ⟨[0, 315.42, 769.31, 1864.89, 2118.26, 3275.16, 5000],
    [0, 315.42 - 1 / 2, 769.31 - 1 / 2, 1864.89 - 1 / 2, 2118.26 - 1 / 2,
      3275.16 - 1 / 2, 0]⟩, ?_, rfl, ?_⟩
  · norm_num [centroid, spectrumLowCentroid]
  · norm_num [skipped, gPeaks, gWidths, spectrumLowCentroid]
  · norm_num [collectPoints, peakLoop, peakBody, gPeaks, gWidths, spectrumLowCentroid,
      boundaryConditions]
  · norm_num [PointVectors.pairs, centroid, gPeaks, gWidths, spectrumLowCentroid]

/-- C6 (amended): a reference peak whose located position (the value the peak search
returns) is below 1 is skipped: the loop body leaves both vectors unchanged and the
loop goes on with the next peak.  Every point collected for a channel is a boundary
point or comes from a peak whose located position is at least 1.  The centroid
returned by the fit is not examined. -/
theorem C6_skip_on_located_position (peaks widths : List ℚ) (h : Spectrum)
    (hlen : peaks.length = widths.length) :
    (∀ (v : PointVectors) (k todo : Nat), k + (todo + 1) ≤ peaks.length →
      h.searchPosition k (peaks.getD k 0 - widths.getD k 0)
        (peaks.getD k 0 + widths.getD k 0) < 1 →
      peakBody peaks widths h v k = some v ∧
      peakLoop peaks widths h k (todo + 1) v = peakLoop peaks widths h (k + 1) todo v) ∧
    ∃ v, collectPoints peaks widths h = some v ∧
      ∀ p ∈ v.pairs, p = (0, 0) ∨ p = (5000, 0) ∨
        ∃ k, k < peaks.length ∧
          1 ≤ h.searchPosition k (peaks.getD k 0 - widths.getD k 0)
            (peaks.getD k 0 + widths.getD k 0) ∧
          p = (peaks.getD k 0, peaks.getD k 0 - centroid peaks widths h k) := by
  constructor
  · intro v k todo hk hs
    have hb : peakBody peaks widths h v k = some v := by
      have hsk : skipped peaks widths h k = true := by
        unfold skipped
        exact decide_eq_true hs
      rw [peakBody_eq peaks widths h v k (by omega) (by omega)]
      simp [hsk]
    exact ⟨hb, by rw [peakLoop, hb]⟩
  · refine ⟨_, collectPoints_eq peaks widths h hlen, ?_⟩
    intro p hp
    rw [pairs_boundary] at hp
    simp only [List.cons_append, List.mem_cons, List.mem_append, List.mem_singleton,
      List.not_mem_nil, or_false] at hp
    rcases hp with hp | hp | hp
    · exact Or.inl hp
    · obtain ⟨k, hk, hsk, hpk⟩ := keptPairs_mem peaks widths h peaks.length p hp
      refine Or.inr (Or.inr ⟨k, hk, ?_, hpk⟩)
      simpa [skipped] using hsk
    · exact Or.inr (Or.inl hp)

/-- Witness of C6 (amended): the built-in reference vectors and a channel whose
second peak is located at position 0. -/
theorem C6_skip_on_located_position_witness :
    gPeaks.length = gWidths.length ∧
    peakBody gPeaks gWidths spectrumSecondMissing { EngX := [315.42], EngDiff := [-1] } 1
      = some { EngX := [315.42], EngDiff := [-1] } :=
  ⟨rfl, ((C6_skip_on_located_position gPeaks gWidths spectrumSecondMissing rfl).1
    { EngX := [315.42], EngDiff := [-1] } 1 0 (by simp [gPeaks])
    (by norm_num [spectrumSecondMissing])).1⟩

/-- C7: for the built-in `gPeaks`, and for any strictly increasing reference energies
lying strictly between 0 and 5000, whichever peaks are skipped, the x-values `EngX`
after the boundary insertion are strictly increasing. -/
theorem C7_EngX_strictly_increasing :
    (∀ h : Spectrum, ∃ v, collectPoints gPeaks gWidths h = some v ∧ v.EngX.Sorted (· < ·)) ∧
    (∀ (peaks widths : List ℚ) (h : Spectrum), peaks.length = widths.length →
      peaks.Sorted (· < ·) → (∀ p ∈ peaks, 0 < p ∧ p < 5000) →
      ∃ v, collectPoints peaks widths h = some v ∧ v.EngX.Sorted (· < ·)) :=
  ⟨fun h => EngX_sorted gPeaks gWidths h rfl gPeaks_sorted gPeaks_inside,
   fun peaks widths h hlen hs hb => EngX_sorted peaks widths h hlen hs hb⟩

/-- Witness of C7: reference energies `[100, 200]` with the channel located at 105
and 198. -/
theorem C7_EngX_strictly_increasing_witness :
    ∃ v, collectPoints [100, 200] [10, 10] spectrum105and198 = some v ∧
      v.EngX.Sorted (· < ·) :=
  C7_EngX_strictly_increasing.2 [100, 200] [10, 10] spectrum105and198 rfl
    (by norm_num [List.Sorted]) (by
      intro p hp
      simp only [List.mem_cons, List.mem_singleton, List.not_mem_nil, or_false] at hp
      rcases hp with rfl | rfl <;> constructor <;> norm_num)

/-- C8: when the argument count is not 2, or the file is not open, or the two
reference vectors differ in length, `main` ends with status `EXIT_FAILURE = 1` and no
channel has been processed; the built-in vectors have equal length, so with two
arguments, an open file and a tree present the run goes into the channel loop. -/
theorem C8_early_exit (peaks widths : List ℚ) (argc : Int) (fileIsOpen treeFound : Bool)
    (hist : Nat → Spectrum) :
    ((argc ≠ 2 ∨ fileIsOpen = false ∨ peaks.length ≠ widths.length) →
      mainWith peaks widths argc fileIsOpen treeFound hist = Outcome.exited 1 []) ∧
    gPeaks.length = gWidths.length ∧
    main 2 true true hist = channelLoop gPeaks gWidths hist 0 64 [] := by
  refine ⟨?_, rfl, ?_⟩
  · intro hyp
    unfold mainWith EXIT_FAILURE
    by_cases h1 : argc ≠ 2
    · simp [h1]
    by_cases h2 : fileIsOpen = false
    · simp [h2]
    by_cases h3 : peaks.length ≠ widths.length
    · simp [h3]
    · rcases hyp with h | h | h
      · exact absurd h h1
      · exact absurd h h2
      · exact absurd h h3
  · simp [main, mainWith, gPeaks, gWidths]

/-- Witness of C8: five reference energies against four widths. -/
theorem C8_early_exit_witness :
    mainWith gPeaks [20, 20, 20, 20] 2 true true (fun _ => spectrumAllFound)
      = Outcome.exited 1 [] :=
  (C8_early_exit gPeaks [20, 20, 20, 20] 2 true true (fun _ => spectrumAllFound)).1
    (Or.inr (Or.inr (by simp [gPeaks])))

/-! ## Proofs: libraries/TGRSIAnalysis/TNucleus/TNucleus.cxx -/

theorem digit_mem_digitChars (c : Char) (h : c.isDigit = true) :
    digitChars.contains c = true := by
  have hc : c = Char.ofNat c.toNat := (Char.ofNat_toNat c).symm
  simp only [Char.isDigit, Bool.and_eq_true, decide_eq_true_eq] at h
  obtain ⟨h1, h2⟩ := h
  have h1' : 48 ≤ c.toNat := h1
  have h2' : c.toNat ≤ 57 := h2
  generalize c.toNat = n at hc h1' h2'
  subst hc
  interval_cases n <;> decide

theorem digitChars_not_alpha (c : Char) (h : digitChars.contains c = true) :
    c.isAlpha = false := by
  have hall : ∀ a ∈ digitChars, a.isAlpha = false := by decide
  simp only [List.contains_iff_exists_mem_beq, beq_iff_eq] at h
  obtain ⟨a, ha, rfl⟩ := h
  exact hall _ ha

theorem alpha_not_mem_digitChars (c : Char) (h : c.isAlpha = true) :
    digitChars.contains c = false := by
  by_contra hc
  have := digitChars_not_alpha c (by simpa using hc)
  rw [h] at this
  exact Bool.noConfusion this

theorem digit_mem (c : Char) (h : c.isDigit = true) : c ∈ digitChars := by
  simpa using digit_mem_digitChars c h

theorem alpha_not_mem (c : Char) (h : c.isAlpha = true) : c ∉ digitChars := by
  simpa using alpha_not_mem_digitChars c h

theorem isspace_not_digit (c : Char) (h : isspace c = true) : c.isDigit = false := by
  simp only [isspace, Bool.or_eq_true, beq_iff_eq] at h
  rcases h with ((((rfl | rfl) | rfl) | rfl) | rfl) | rfl <;> decide


theorem findFrom_skip (p : Char → Bool) (l1 l2 : List Char) (i : Nat)
    (h : ∀ c ∈ l1, p c = false) :
    findFrom p (l1 ++ l2) i = findFrom p l2 (i + l1.length) := by
  induction l1 generalizing i with
  | nil => simp
  | cons a t ih =>
    have ha : p a = false := h a (List.mem_cons_self a t)
    have step : findFrom p (a :: (t ++ l2)) i = findFrom p (t ++ l2) (i + 1) := by
      simp [findFrom, ha]
    rw [List.cons_append, step, ih (i + 1) (fun c hc => h c (List.mem_cons_of_mem a hc)),
      List.length_cons]
    congr 1
    omega

theorem findFrom_head (p : Char → Bool) (l : List Char) (i : Nat) (hne : l ≠ [])
    (h : ∀ c ∈ l, p c = true) : findFrom p l i = i := by
  cases l with
  | nil => exact absurd rfl hne
  | cons a t => simp [findFrom, h a (List.mem_cons_self a t)]

theorem toInt_small (n : Nat) (h : n < 2147483648) : toInt n = (n : Int) := by
  unfold toInt
  have h1 : n % 2 ^ 32 = n := Nat.mod_eq_of_lt (by omega)
  rw [h1]
  simp only [Nat.reducePow]
  rw [if_pos h]

theorem toSizeT_small (n : Nat) (h : n < 2147483648) : toSizeT (n : Int) = n := by
  unfold toSizeT
  have h1 : ((n : Int) % 2 ^ 64) = (n : Int) := by
    apply Int.emod_eq_of_lt
    · omega
    · norm_num
      omega
  rw [h1]
  simp

theorem atoiDigits_eq_foldl (d : List Char) (acc : Nat) (h : ∀ c ∈ d, c.isDigit = true) :
    atoiDigits d acc = d.foldl (fun acc c => 10 * acc + (c.toNat - 48)) acc := by
  induction d generalizing acc with
  | nil => rfl
  | cons a t ih =>
    simp only [atoiDigits, h a (List.mem_cons_self a t), if_true, List.foldl_cons]
    exact ih _ (fun c hc => h c (List.mem_cons_of_mem a hc))

theorem atoi_digits (d : List Char) (hne : d ≠ []) (h : ∀ c ∈ d, c.isDigit = true)
    (hv : decimalValue d ≤ 2147483647) : atoi d = some (decimalValue d : Int) := by
  cases d with
  | nil => exact absurd rfl hne
  | cons a t =>
    have ha : a.isDigit = true := h a (List.mem_cons_self a t)
    have hsp : isspace a = false := by
      by_contra hc
      have := isspace_not_digit a (by simpa using hc)
      rw [ha] at this
      exact Bool.noConfusion this
    have hm : a ≠ '-' := by
      intro e; subst e; revert ha; decide
    have hp : a ≠ '+' := by
      intro e; subst e; revert ha; decide
    have hval : atoiDigits (a :: t) 0 = decimalValue (a :: t) :=
      atoiDigits_eq_foldl (a :: t) 0 h
    have hdw : List.dropWhile isspace (a :: t) = a :: t := by
      simp [List.dropWhile, hsp]
    unfold atoi
    simp only [hdw]
    have hmatch : (match a :: t with
        | '-' :: t => -(atoiDigits t 0 : Int)
        | '+' :: t => (atoiDigits t 0 : Int)
        | _ => (atoiDigits (a :: t) 0 : Int)) = (decimalValue (a :: t) : Int) := by
      split
      · rename_i heq
        simp only [List.cons.injEq] at heq
        exact absurd heq.1 hm
      · rename_i heq
        simp only [List.cons.injEq] at heq
        exact absurd heq.1 hp
      · rw [hval]
    rw [hmatch]
    rw [if_pos]
    constructor
    · omega
    · omega

theorem take_npos (l : List Char) (h : l.length < 2147483648) : l.take npos = l := by
  apply List.take_of_length_le
  unfold npos
  omega

theorem splitName_number_first (s d : List Char) (hs : s ≠ []) (hd : d ≠ [])
    (hsa : ∀ c ∈ s, c.isAlpha = true) (hdd : ∀ c ∈ d, c.isDigit = true)
    (hv : decimalValue d ≤ 2147483647) (hl : d.length + s.length < 2147483648) :
    splitName (d ++ s) = Except.ok (ParsedName.mk (decimalValue d : Int) s
      ((toString (decimalValue d : Int)).toList ++ s)) := by
  have hfd : find_first_of (d ++ s) = 0 := by
    unfold find_first_of
    cases d with
    | nil => exact absurd rfl hd
    | cons a t =>
      simp [findFrom, digit_mem a (hdd a (List.mem_cons_self a t))]
  have hfl : find_first_not_of (d ++ s) = d.length := by
    unfold find_first_not_of
    rw [findFrom_skip _ d s 0 (fun c hc => by simp [digit_mem c (hdd c hc)])]
    rw [findFrom_head _ s _ hs (fun c hc => by simp [alpha_not_mem c (hsa c hc)])]
    omega
  have hdpos : 0 < d.length := List.length_pos.mpr hd
  unfold splitName
  simp only [hfd, hfl]
  rw [toInt_small 0 (by omega), toInt_small d.length (by omega)]
  have hgt : ¬ ((0 : Nat) : Int) > (d.length : Int) := by omega
  rw [if_neg hgt]
  have e1 : toSizeT ((0 : Nat) : Int) = 0 := toSizeT_small 0 (by omega)
  have e2 : toSizeT ((d.length : Int) - ((0 : Nat) : Int)) = d.length := by
    have : (d.length : Int) - ((0 : Nat) : Int) = (d.length : Int) := by simp
    rw [this]
    exact toSizeT_small d.length (by omega)
  have e3 : toSizeT (d.length : Int) = d.length := toSizeT_small d.length (by omega)
  rw [e1, e2, e3]
  have s1 : substr (d ++ s) 0 d.length = some d := by
    simp [substr]
  have s2 : substr (d ++ s) d.length npos = some s := by
    unfold substr
    rw [if_neg (by simp)]
    simp [take_npos s (by omega)]
  simp only [s1, s2, atoi_digits d hd hdd hv]

theorem splitName_symbol_first (s d : List Char) (hs : s ≠ []) (hd : d ≠ [])
    (hsa : ∀ c ∈ s, c.isAlpha = true) (hdd : ∀ c ∈ d, c.isDigit = true)
    (hv : decimalValue d ≤ 2147483647) (hl : d.length + s.length < 2147483648) :
    splitName (s ++ d) = Except.ok (ParsedName.mk (decimalValue d : Int) s
      ((toString (decimalValue d : Int)).toList ++ s)) := by
  have hfl : find_first_not_of (s ++ d) = 0 := by
    unfold find_first_not_of
    cases s with
    | nil => exact absurd rfl hs
    | cons a t =>
      simp [findFrom, alpha_not_mem a (hsa a (List.mem_cons_self a t))]
  have hfd : find_first_of (s ++ d) = s.length := by
    unfold find_first_of
    rw [findFrom_skip _ s d 0 (fun c hc => by simp [alpha_not_mem c (hsa c hc)])]
    rw [findFrom_head _ d _ hd (fun c hc => by simp [digit_mem c (hdd c hc)])]
    omega
  have hspos : 0 < s.length := List.length_pos.mpr hs
  unfold splitName
  simp only [hfd, hfl]
  rw [toInt_small 0 (by omega), toInt_small s.length (by omega)]
  have hgt : ((s.length : Nat) : Int) > ((0 : Nat) : Int) := by omega
  rw [if_pos hgt]
  have e1 : toSizeT ((0 : Nat) : Int) = 0 := toSizeT_small 0 (by omega)
  have e2 : toSizeT ((s.length : Int) - ((0 : Nat) : Int)) = s.length := by
    have : (s.length : Int) - ((0 : Nat) : Int) = (s.length : Int) := by simp
    rw [this]
    exact toSizeT_small s.length (by omega)
  have e3 : toSizeT (s.length : Int) = s.length := toSizeT_small s.length (by omega)
  rw [e1, e2, e3]
  have s1 : substr (s ++ d) 0 s.length = some s := by
    simp [substr]
  have s2 : substr (s ++ d) s.length npos = some d := by
    unfold substr
    rw [if_neg (by simp)]
    simp [take_npos d (by omega)]
  simp only [s1, s2, atoi_digits d hd hdd hv]

theorem shortName_long (Name : List Char) (h : 2 ≤ Name.length) :
    shortName Name = some Name := by
  unfold shortName
  rw [if_neg (by omega)]

theorem parseName_of_split (name Name : List Char) (he : eraseSpaces name = Name)
    (h : 2 ≤ Name.length) : parseName name = splitName Name := by
  unfold parseName
  rw [he, shortName_long Name h]

theorem shortName_cases (Name : List Char) (h : Name.length < 2) :
    (Name = ['p'] ∧ shortName Name = some "h1".toList) ∨
    (Name = ['d'] ∧ shortName Name = some "h2".toList) ∨
    (Name = ['t'] ∧ shortName Name = some "h3".toList) ∨
    (Name = ['a'] ∧ shortName Name = some "he4".toList) ∨
    (Name ≠ ['p'] ∧ Name ≠ ['d'] ∧ Name ≠ ['t'] ∧ Name ≠ ['a'] ∧ shortName Name = none) := by
  match Name, h with
  | [], _ => exact Or.inr (Or.inr (Or.inr (Or.inr (by decide))))
  | [c], _ =>
    by_cases hp : c = 'p'
    · subst hp; exact Or.inl (by decide)
    by_cases hd : c = 'd'
    · subst hd; exact Or.inr (Or.inl (by decide))
    by_cases ht : c = 't'
    · subst ht; exact Or.inr (Or.inr (Or.inl (by decide)))
    by_cases ha : c = 'a'
    · subst ha; exact Or.inr (Or.inr (Or.inr (Or.inl (by decide))))
    refine Or.inr (Or.inr (Or.inr (Or.inr ⟨?_, ?_, ?_, ?_, ?_⟩)))
    · simpa using hp
    · simpa using hd
    · simpa using ht
    · simpa using ha
    · unfold shortName
      simp only [List.length_singleton, Nat.one_lt_ofNat, if_true, List.headD_cons]
  | _ :: _ :: _, h => exact absurd h (by simp)

theorem toString_natCast (n : Nat) : toString ((n : Nat) : Int) = toString n := rfl

theorem decimalValue_zeros (n : Nat) : decimalValue (List.replicate n '0') = 0 := by
  unfold decimalValue
  induction n with
  | zero => rfl
  | succ k ih =>
    rw [List.replicate_succ, List.foldl_cons]
    exact ih

theorem splitName_long_number (s d : List Char) (hs : s ≠ [])
    (hsa : ∀ c ∈ s, c.isAlpha = true) (hdd : ∀ c ∈ d, c.isDigit = true)
    (hlen : d.length = 2147483648) (hsl : s.length < 2147483648) :
    ∃ e, splitName (d ++ s) = Except.error e := by
  have hd : d ≠ [] := by
    intro h
    rw [h] at hlen
    simp at hlen
  have hfd : find_first_of (d ++ s) = 0 := by
    unfold find_first_of
    cases d with
    | nil => exact absurd rfl hd
    | cons a t =>
      simp [findFrom, digit_mem a (hdd a (List.mem_cons_self a t))]
  have hfl : find_first_not_of (d ++ s) = 2147483648 := by
    unfold find_first_not_of
    rw [findFrom_skip _ d s 0 (fun c hc => by simp [digit_mem c (hdd c hc)])]
    rw [findFrom_head _ s _ hs (fun c hc => by simp [alpha_not_mem c (hsa c hc)])]
    omega
  have t0 : toInt 0 = 0 := by decide
  have t1 : toInt 2147483648 = -2147483648 := by decide
  have z0 : toSizeT 0 = 0 := by decide
  have z1 : toSizeT (-2147483648) = 18446744071562067968 := by decide
  have hgt : (0 : Int) > -2147483648 := by decide
  have s2 : ∀ len, substr (d ++ s) 18446744071562067968 len = none := by
    intro len
    unfold substr
    rw [if_pos]
    rw [List.length_append, hlen]
    omega
  unfold splitName
  simp only [hfd, hfl, t0, t1, if_pos hgt, z0, z1, s2]
  split
  · exact ⟨_, rfl⟩
  · split
    · exact ⟨_, rfl⟩
    · exact ⟨_, rfl⟩

theorem parseName_long_zeros (n : Nat) (hn : n = 2147483648) :
    ∃ e, parseName (List.replicate n '0' ++ "Mg".toList) = Except.error e := by
  have hdig : ∀ c ∈ List.replicate n '0', c.isDigit = true := by
    intro c hc
    rw [List.eq_of_mem_replicate hc]
    decide
  have hmg : ∀ c ∈ "Mg".toList, c.isAlpha = true := by decide
  have herase : eraseSpaces (List.replicate n '0' ++ "Mg".toList)
      = List.replicate n '0' ++ "Mg".toList := by
    unfold eraseSpaces
    rw [List.filter_eq_self]
    intro c hc
    rw [List.mem_append] at hc
    rcases hc with hc | hc
    · have := isspace_not_digit c
      cases hsp : isspace c with
      | false => rfl
      | true =>
        have hd1 := hdig c hc
        rw [this hsp] at hd1
        exact Bool.noConfusion hd1
    · revert c
      decide
  rw [parseName_of_split _ _ herase (by rw [List.length_append, List.length_replicate]; omega)]
  exact splitName_long_number "Mg".toList (List.replicate n '0') (by decide) hmg hdig
    (by rw [List.length_replicate, hn]) (by decide)

/-! ### Properties of the nucleus name handling -/

/-- C9 (counterexample): the digit string 2147483648 with the symbol Mg, in either
order, is not parsed to the mass number 2147483648: the value does not fit the `int`
that `atoi` returns.  A name made of 2^31 zeros followed by Mg is not parsed either:
the position of the first letter does not fit the `int` it is stored in. -/
theorem C9_mass_number_overflow :
    (∀ c ∈ "Mg".toList, c.isAlpha = true) ∧
    (∀ c ∈ "2147483648".toList, c.isDigit = true) ∧
    decimalValue "2147483648".toList = 2147483648 ∧
    parseName "2147483648Mg".toList = Except.error NameError.intOverflow ∧
    parseName "Mg2147483648".toList = Except.error NameError.intOverflow ∧
    parseName "2147483648Mg".toList
      ≠ Except.ok (ParsedName.mk 2147483648 "Mg".toList "2147483648Mg".toList) ∧
    decimalValue (List.replicate 2147483648 '0') = 0 ∧
    ∃ e, parseName (List.replicate 2147483648 '0' ++ "Mg".toList) = Except.error e := by
  have h1 : parseName "2147483648Mg".toList = Except.error NameError.intOverflow := rfl
  refine ⟨by decide, by decide, rfl, h1, rfl, ?_, decimalValue_zeros 2147483648,
    parseName_long_zeros 2147483648 rfl⟩
  rw [h1]
  intro e
  exact Except.noConfusion e

/-- C9 (amended): for a non-empty alphabetic symbol `s` and a non-empty string of
decimal digits `d` whose value is at most 2147483647, in a name shorter than 2^31
characters, the names `d ++ s` and `s ++ d`, with any white space removed, are parsed
to the mass number written by `d`, the symbol `s` and the lookup key made of the
decimal rendering of the number followed by `s`.  A name shorter than two characters
that is p, d, t or a is parsed exactly as h1, h2, h3 or he4 is, that is to the numbers
1, 2, 3, 4 with the symbols h, h, h, he; for any other name shorter than two
characters the usage error is raised and the constructor leaves the nucleus unset. -/
theorem C9_both_orders (s d : List Char) (hs : s ≠ []) (hd : d ≠ [])
    (hsa : ∀ c ∈ s, c.isAlpha = true) (hdd : ∀ c ∈ d, c.isDigit = true)
    (hv : decimalValue d ≤ 2147483647) (hl : d.length + s.length < 2147483648) :
    (∀ name : List Char, eraseSpaces name = d ++ s ∨ eraseSpaces name = s ++ d →
      parseName name = Except.ok (ParsedName.mk (decimalValue d : Int) s
        ((toString (decimalValue d)).toList ++ s))) ∧
    (∀ name : List Char, (eraseSpaces name).length < 2 →
      (eraseSpaces name = ['p'] →
        parseName name = parseName "h1".toList ∧
        parseName name = Except.ok (ParsedName.mk 1 "h".toList "1h".toList)) ∧
      (eraseSpaces name = ['d'] →
        parseName name = parseName "h2".toList ∧
        parseName name = Except.ok (ParsedName.mk 2 "h".toList "2h".toList)) ∧
      (eraseSpaces name = ['t'] →
        parseName name = parseName "h3".toList ∧
        parseName name = Except.ok (ParsedName.mk 3 "h".toList "3h".toList)) ∧
      (eraseSpaces name = ['a'] →
        parseName name = parseName "he4".toList ∧
        parseName name = Except.ok (ParsedName.mk 4 "he".toList "4he".toList)) ∧
      (eraseSpaces name ≠ ['p'] ∧ eraseSpaces name ≠ ['d'] ∧ eraseSpaces name ≠ ['t'] ∧
          eraseSpaces name ≠ ['a'] →
        parseName name = Except.error NameError.usage ∧
        ∀ massTable, TNucleus massTable name = Constructed.unset (some NameError.usage)) ∧
      ((eraseSpaces name = ['p'] ∧ parseName name = parseName "h1".toList) ∨
       (eraseSpaces name = ['d'] ∧ parseName name = parseName "h2".toList) ∨
       (eraseSpaces name = ['t'] ∧ parseName name = parseName "h3".toList) ∨
       (eraseSpaces name = ['a'] ∧ parseName name = parseName "he4".toList) ∨
       (eraseSpaces name ≠ ['p'] ∧ eraseSpaces name ≠ ['d'] ∧ eraseSpaces name ≠ ['t'] ∧
          eraseSpaces name ≠ ['a'] ∧
        parseName name = Except.error NameError.usage ∧
        ∀ massTable, TNucleus massTable name = Constructed.unset (some NameError.usage)))) ∧
    parseName "h1".toList = Except.ok (ParsedName.mk 1 "h".toList "1h".toList) ∧
    parseName "h2".toList = Except.ok (ParsedName.mk 2 "h".toList "2h".toList) ∧
    parseName "h3".toList = Except.ok (ParsedName.mk 3 "h".toList "3h".toList) ∧
    parseName "he4".toList = Except.ok (ParsedName.mk 4 "he".toList "4he".toList) := by
  have hdl : 0 < d.length := List.length_pos.mpr hd
  have hsl : 0 < s.length := List.length_pos.mpr hs
  refine ⟨?_, ?_, rfl, rfl, rfl, rfl⟩
  · intro name hname
    rw [← toString_natCast]
    rcases hname with h | h
    · rw [parseName_of_split name (d ++ s) h (by rw [List.length_append]; omega)]
      exact splitName_number_first s d hs hd hsa hdd hv hl
    · rw [parseName_of_split name (s ++ d) h (by rw [List.length_append]; omega)]
      exact splitName_symbol_first s d hs hd hsa hdd hv hl
  · intro name hlen
    have hP : eraseSpaces name = ['p'] → parseName name = parseName "h1".toList := by
      intro h
      simp only [parseName, h]
      rfl
    have hD : eraseSpaces name = ['d'] → parseName name = parseName "h2".toList := by
      intro h
      simp only [parseName, h]
      rfl
    have hT : eraseSpaces name = ['t'] → parseName name = parseName "h3".toList := by
      intro h
      simp only [parseName, h]
      rfl
    have hA : eraseSpaces name = ['a'] → parseName name = parseName "he4".toList := by
      intro h
      simp only [parseName, h]
      rfl
    have hU : eraseSpaces name ≠ ['p'] ∧ eraseSpaces name ≠ ['d'] ∧ eraseSpaces name ≠ ['t'] ∧
        eraseSpaces name ≠ ['a'] →
        parseName name = Except.error NameError.usage ∧
        ∀ massTable, TNucleus massTable name = Constructed.unset (some NameError.usage) := by
      intro hne
      have hp : parseName name = Except.error NameError.usage := by
        rcases shortName_cases (eraseSpaces name) hlen with h | h | h | h | h
        · exact absurd h.1 hne.1
        · exact absurd h.1 hne.2.1
        · exact absurd h.1 hne.2.2.1
        · exact absurd h.1 hne.2.2.2
        · simp only [parseName, h.2.2.2.2]
      refine ⟨hp, ?_⟩
      intro massTable
      simp only [TNucleus, hp]
    refine ⟨fun h => ⟨hP h, (hP h).trans rfl⟩, fun h => ⟨hD h, (hD h).trans rfl⟩,
      fun h => ⟨hT h, (hT h).trans rfl⟩, fun h => ⟨hA h, (hA h).trans rfl⟩, hU, ?_⟩
    rcases shortName_cases (eraseSpaces name) hlen with h | h | h | h | h
    · exact Or.inl ⟨h.1, hP h.1⟩
    · exact Or.inr (Or.inl ⟨h.1, hD h.1⟩)
    · exact Or.inr (Or.inr (Or.inl ⟨h.1, hT h.1⟩))
    · exact Or.inr (Or.inr (Or.inr (Or.inl ⟨h.1, hA h.1⟩)))
    · have hne := And.intro h.1 (And.intro h.2.1 (And.intro h.2.2.1 h.2.2.2.1))
      exact Or.inr (Or.inr (Or.inr (Or.inr
        ⟨h.1, h.2.1, h.2.2.1, h.2.2.2.1, (hU hne).1, (hU hne).2⟩)))

/-- Witness of C9 (amended): the names "30 Mg" and " Mg30" for the two orders, and the
short names " p", "d", "t ", "a" and "x". -/
theorem C9_both_orders_witness :
    parseName "30 Mg".toList = Except.ok (ParsedName.mk 30 "Mg".toList "30Mg".toList) ∧
    parseName " Mg30".toList = Except.ok (ParsedName.mk 30 "Mg".toList "30Mg".toList) ∧
    parseName " p".toList = Except.ok (ParsedName.mk 1 "h".toList "1h".toList) ∧
    parseName "d".toList = Except.ok (ParsedName.mk 2 "h".toList "2h".toList) ∧
    parseName "t ".toList = Except.ok (ParsedName.mk 3 "h".toList "3h".toList) ∧
    parseName "a".toList = Except.ok (ParsedName.mk 4 "he".toList "4he".toList) ∧
    parseName "x".toList = Except.error NameError.usage ∧
    TNucleus [] "x".toList = Constructed.unset (some NameError.usage) :=
  ⟨(C9_both_orders "Mg".toList "30".toList (by decide) (by decide) (by decide) (by decide)
      (by decide) (by decide)).1 "30 Mg".toList (Or.inl (by decide)),
   (C9_both_orders "Mg".toList "30".toList (by decide) (by decide) (by decide) (by decide)
      (by decide) (by decide)).1 " Mg30".toList (Or.inr (by decide)),
   (((C9_both_orders "Mg".toList "30".toList (by decide) (by decide) (by decide) (by decide)
      (by decide) (by decide)).2.1 " p".toList (by decide)).1 (by decide)).2,
   (((C9_both_orders "Mg".toList "30".toList (by decide) (by decide) (by decide) (by decide)
      (by decide) (by decide)).2.1 "d".toList (by decide)).2.1 (by decide)).2,
   (((C9_both_orders "Mg".toList "30".toList (by decide) (by decide) (by decide) (by decide)
      (by decide) (by decide)).2.1 "t ".toList (by decide)).2.2.1 (by decide)).2,
   (((C9_both_orders "Mg".toList "30".toList (by decide) (by decide) (by decide) (by decide)
      (by decide) (by decide)).2.1 "a".toList (by decide)).2.2.2.1 (by decide)).2,
   (((C9_both_orders "Mg".toList "30".toList (by decide) (by decide) (by decide) (by decide)
      (by decide) (by decide)).2.1 "x".toList (by decide)).2.2.2.2.1
      ⟨by decide, by decide, by decide, by decide⟩).1,
   (((C9_both_orders "Mg".toList "30".toList (by decide) (by decide) (by decide) (by decide)
      (by decide) (by decide)).2.1 "x".toList (by decide)).2.2.2.2.1
      ⟨by decide, by decide, by decide, by decide⟩).2 []⟩

/-- C10 (evaluation at the failing input): the table has 105 entries, but entry 52
is "F", the same as entry 8, and entry 80 is "TI", the same as entry 21; looking up
entry 52 returns 9 instead of 53 and looking up entry 80 returns 22 instead of 81.
These are the only two indices at which the lookup of the table symbol does not
return the index plus one. -/
theorem C10_table_symbols_repeat :
    symbols.length = 105 ∧
    symbols.getD 52 [] = "F".toList ∧ symbols.getD 8 [] = "F".toList ∧
    GetZfromSymbol (symbols.getD 52 []) = { returned := 9, fZ := 9 } ∧
    symbols.getD 80 [] = "TI".toList ∧ symbols.getD 21 [] = "TI".toList ∧
    GetZfromSymbol (symbols.getD 80 []) = { returned := 22, fZ := 22 } ∧
    GetZfromSymbol "I".toList = { returned := 0, fZ := 0 } ∧
    (List.range 105).filter (fun i =>
      decide (GetZfromSymbol (symbols.getD i []) ≠ { returned := (i : Int) + 1, fZ := (i : Int) + 1 }))
      = [52, 80] := by
  refine ⟨by decide, by decide, by decide, by decide, by decide, by decide, by decide,
    by decide, ?_⟩
  decide

end GRSISort
